import Mathlib

/-
Verification development for the Table-of-Contents crawler action.

The repository contains four variants of the `tocCrawler` action:
  * `src/packages/skeleton/src/lib/utilities/TableOfContents/crawler.ts`
    (the "crawler" variant below: one IntersectionObserver per non-ignored
    heading, visibility-set heuristic);
  * `src/unnamed/part_000` (the "p0" variant below: permalinks for every
    non-ignored heading, but three watchers only for headings whose next
    element sibling carries `data-toc-content`);
  * `src/unnamed/part_001` and `src/unnamed/part_002` (two further historical
    variants sharing the same extraction pipeline).

All variants share the heading-extraction pipeline, which is modelled once.
Strings are modelled over their character lists; the JavaScript string
operations used by the source (`trim`, `toLowerCase`, `replaceAll` over the
ASCII character class `[^a-zA-Z0-9 ]`) are reproduced at the ASCII level.
-/

/-- ASCII whitespace as recognised by the model of `String.prototype.trim`. -/
def isJsWhitespace (c : Char) : Bool :=
  c == ' ' || c == '\t' || c == '\n' || c == '\r'

/-- Drop leading and trailing whitespace from a character list. -/
def trimChars (l : List Char) : List Char :=
  ((l.dropWhile isJsWhitespace).reverse.dropWhile isJsWhitespace).reverse

/-- Model of JavaScript `s.trim()` (ASCII fragment). -/
def jsTrim (s : String) : String :=
  ⟨trimChars s.data⟩

/-- Lowercase a single ASCII character, as `String.prototype.toLowerCase` does
on the ASCII range. -/
def lowerChar (c : Char) : Char :=
  if 65 ≤ c.toNat ∧ c.toNat ≤ 90 then Char.ofNat (c.toNat + 32) else c

/-- Model of JavaScript `s.toLowerCase()` (ASCII fragment). -/
def jsToLowerCase (s : String) : String :=
  ⟨s.data.map lowerChar⟩

/-- Characters kept by `replaceAll(/[^a-zA-Z0-9 ]/g, '')`: letters, digits and
the space character. -/
def keepChar (c : Char) : Bool :=
  (97 ≤ c.toNat && c.toNat ≤ 122) || (65 ≤ c.toNat && c.toNat ≤ 90) ||
    (48 ≤ c.toNat && c.toNat ≤ 57) || c.toNat == 32

/-- `replaceAll(' ', '-')` acts character by character. -/
def spaceToHyphen (c : Char) : Char :=
  if c == ' ' then '-' else c

/-- The slug computation applied to a heading's first text node in generate
mode: `.trim().replaceAll(/[^a-zA-Z0-9 ]/g, '').replaceAll(' ', '-')
.toLowerCase()` (crawler.ts lines 60-64, identical in the other variants). -/
def slugify (s : String) : String :=
  jsToLowerCase ⟨((trimChars s.data).filter keepChar).map spaceToHyphen⟩

/-- JavaScript string concatenation coerces `undefined` to the string
"undefined"; this models `prefix + newHeadingId + suffix` when the optional
chain producing `newHeadingId` evaluated to `undefined`. -/
def jsUndefCoe : Option String → String
  | some s => s
  | none => "undefined"

/-- A heading element as the crawler sees it.  `id = ""` models an absent
`id` attribute (the empty string and an absent attribute are equally falsy
in the `!elemHeading.id` test).  `firstChildText = none` models a heading
with no first child (or a first child whose `textContent` is null);
`hasContentSibling` records whether the next element sibling carries the
`data-toc-content` attribute (used only by the p0 variant). -/
structure Heading where
  nodeName : String
  id : String
  firstChildText : Option String
  hasIgnoreAttr : Bool
  hasContentSibling : Bool
deriving DecidableEq, Repr

/-- The configuration fields of `TOCCrawlerArgs` that the claims depend on.
`mode` is the literal option (`some "generate"` or `none`); `pre` and `suf`
model `args.prefix` and `args.suffix`, with `""` standing for both the empty
string and `undefined` (the source only tests their truthiness and both are
falsy). -/
structure TOCCrawlerArgs where
  mode : Option String
  pre : String
  suf : String
deriving DecidableEq, Repr

/-- The identifier assigned in generate mode (crawler.ts lines 60-67):
`prefix + newHeadingId + suffix` where `newHeadingId` is the optional slug of
the first text node. -/
def genId (a : TOCCrawlerArgs) (t : Option String) : String :=
  (if a.pre = "" then "" else a.pre ++ "-") ++ jsUndefCoe (t.map slugify) ++
    (if a.suf = "" then "" else "-" ++ a.suf)

/-- The mutation of `elemHeading.id` performed for a non-ignored heading
(crawler.ts lines 59-68): only in generate mode and only when the heading has
no identifier yet. -/
def assignHeadingId (a : TOCCrawlerArgs) (h : Heading) : Heading :=
  if a.mode = some "generate" ∧ h.id = "" then
    { h with id := genId a h.firstChildText }
  else h

/-- One entry of the permalink array, `TOCHeadingLink` in the source types
(`element`, `id`, `text`, `isVisible`). -/
structure TOCHeadingLink where
  element : String
  id : String
  text : String
  isVisible : Bool
deriving DecidableEq, Repr

/-- The permalink record pushed for a non-ignored heading (crawler.ts lines
70-75), after the generate-mode id assignment has run on the element. -/
def mkPermalink (a : TOCCrawlerArgs) (h : Heading) : TOCHeadingLink :=
  { element := jsToLowerCase (assignHeadingId a h).nodeName
    id := (assignHeadingId a h).id
    text := ((assignHeadingId a h).firstChildText.map jsTrim).getD ""
    isVisible := false }

/-- A registered watcher of the crawler variant.  `headingIndex` is the value
of `permalinkIndexCount` captured by the callback closure; `headingId` is the
heading's id as the closure will read it (`elemHeading.id` after the
generate-mode assignment); `connected` tracks whether `disconnect()` has been
called; `headingPos` is a ghost field recording the position at which this
watcher's heading was pushed into the permalink array, used to state the
index-alignment claims. -/
structure ObsRec where
  headingIndex : Nat
  headingId : String
  connected : Bool
  headingPos : Nat
deriving DecidableEq, Repr

/-- The `headings?.forEach` loop of crawler.ts `queryHeadings` (lines 54-139),
as a recursion over the heading list.  `cnt` is `permalinkIndexCount` and
`pos` is the ghost count of permalinks already pushed; the loop increments
both together.  Returns the permalink array, the freshly created watcher
records, and the headings with their mutated ids. -/
def crProcess (a : TOCCrawlerArgs) :
    List Heading → Nat → Nat → List TOCHeadingLink × List ObsRec × List Heading
  | [], _, _ => ([], [], [])
  | h :: rest, cnt, pos =>
    if h.hasIgnoreAttr then
      let r := crProcess a rest cnt pos
      (r.1, r.2.1, h :: r.2.2)
    else
      let h2 := assignHeadingId a h
      let pl : TOCHeadingLink :=
        ⟨jsToLowerCase h2.nodeName, h2.id, (h2.firstChildText.map jsTrim).getD "", false⟩
      let r := crProcess a rest (cnt + 1) (pos + 1)
      (pl :: r.1, ⟨cnt, h2.id, true, pos⟩ :: r.2.1, h2 :: r.2.2)

/-- The permalink array produced by one run of `queryHeadings` over the given
headings. -/
def extractPermalinks (a : TOCCrawlerArgs) (hs : List Heading) : List TOCHeadingLink :=
  (crProcess a hs 0 0).1

/-- The headings after one run of `queryHeadings`, with generate-mode id
assignments applied to the non-ignored ones. -/
def crUpdatedHeadings (a : TOCCrawlerArgs) (hs : List Heading) : List Heading :=
  (crProcess a hs 0 0).2.2

/-- The state of one `tocCrawler` instance of the crawler variant.  The local
variable `observers` of the source discards watcher records when it is reset;
to be able to speak about watchers created in earlier cycles, the model keeps
a ghost registry `allObs` of every watcher ever created, and represents the
source's `observers` array as the list `current` of registry positions. -/
structure CrState where
  permalinks : List TOCHeadingLink
  allObs : List ObsRec
  current : List Nat
  activeId : String
  tocList : List TOCHeadingLink
deriving DecidableEq, Repr

/-- `obs.disconnect()` for the watcher stored at registry position `j`. -/
def setDisconnected : List ObsRec → Nat → List ObsRec
  | [], _ => []
  | o :: rest, 0 => { o with connected := false } :: rest
  | o :: rest, n + 1 => o :: setDisconnected rest n

/-- Whether the watcher at registry position `j` is connected; positions
outside the registry count as disconnected. -/
def obsConnected (reg : List ObsRec) (j : Nat) : Bool :=
  match reg[j]? with
  | some o => o.connected
  | none => false

/-- crawler.ts `queryHeadings` (lines 43-143): disconnect every watcher in the
current `observers` array, reset it, then process the headings, registering
one watcher per non-ignored heading, and publish the permalink array to the
store.  `tocActiveId` is not written. -/
def crQueryHeadings (a : TOCCrawlerArgs) (hs : List Heading) (s : CrState) : CrState :=
  let reg := s.current.foldl setDisconnected s.allObs
  let r := crProcess a hs 0 0
  { permalinks := r.1
    allObs := reg ++ r.2.1
    current := (List.range r.2.1.length).map (fun k => reg.length + k)
    activeId := s.activeId
    tocList := r.1 }

/-- crawler.ts `init` (lines 28-41): resets the permalink array and re-runs
`queryHeadings`; since `queryHeadings` rebuilds the permalink array from
scratch the net effect on the modelled state is that of `queryHeadings`.
`hs` is the result of `node.querySelectorAll(queryElements)` for the current
configuration. -/
def crInit (a : TOCCrawlerArgs) (hs : List Heading) (s : CrState) : CrState :=
  crQueryHeadings a hs { s with permalinks := [] }

/-- crawler.ts `update(newArgs)` (lines 148-151): replace the configuration
and re-run `init`. -/
def crUpdate (a : TOCCrawlerArgs) (hs : List Heading) (s : CrState) : CrState :=
  crInit a hs s

/-- crawler.ts `destroy()` (lines 152-157): disconnect every watcher in the
current `observers` array. -/
def crDestroy (s : CrState) : CrState :=
  { s with allObs := s.current.foldl setDisconnected s.allObs }

/-- An `IntersectionObserverEntry` as used by the crawler variant's callback:
the intersection flag, the root bounds (null when the root was destroyed) and
the top and bottom of `boundingClientRect`. -/
structure EntryCr where
  isIntersecting : Bool
  rootBounds : Option (Int × Int)
  boundingTop : Int
  boundingBottom : Int
deriving DecidableEq, Repr

/-- `permalinks[i].isVisible = v`; positions outside the array leave it
unchanged (in the source every callback's captured index is within the array
built in the same cycle). -/
def setVisible : List TOCHeadingLink → Nat → Bool → List TOCHeadingLink
  | [], _, _ => []
  | p :: rest, 0, v => { p with isVisible := v } :: rest
  | p :: rest, n + 1, v => p :: setVisible rest n v

/-- The IntersectionObserver callback of crawler.ts (lines 80-135), captured
over `headingIndex = i` and the heading's id `hid`.  Leaving the band upward
marks the heading invisible and activates the first later permalink that is
still visible (the `for` loop from `headingIndex + 1` with `break`); leaving
downward activates the previous permalink when one exists; entering the band
marks the heading visible and activates it unless an earlier permalink is
visible.  In the source `permalinks[x]` is always within bounds for these
reads because the captured index comes from the same cycle as the array; the
model reads out-of-range positions through a default record. -/
def crCallback (i : Nat) (hid : String) (e : EntryCr) (s : CrState) : CrState :=
  if e.isIntersecting then
    let pls := setVisible s.permalinks i true
    if (pls.take i).any (fun p => p.isVisible) then
      { s with permalinks := pls }
    else
      { s with permalinks := pls, activeId := hid }
  else
    match e.rootBounds with
    | none => s
    | some (rt, rb) =>
      if e.boundingTop < rt then
        let pls := setVisible s.permalinks i false
        match (pls.drop (i + 1)).find? (fun p => p.isVisible) with
        | some p => { s with permalinks := pls, activeId := p.id }
        | none => { s with permalinks := pls }
      else if rb ≤ e.boundingBottom then
        let pls := setVisible s.permalinks i false
        if 0 < i then
          { s with permalinks := pls, activeId := (s.permalinks.getD (i - 1) ⟨"", "", "", false⟩).id }
        else
          { s with permalinks := pls }
      else s

/-- Delivery of an intersection event to the watcher at registry position
`j`: a disconnected (or unknown) watcher receives no events, so the state is
unchanged; a connected one runs the crawler callback with its captured
index and heading id. -/
def fireEventCr (s : CrState) (j : Nat) (e : EntryCr) : CrState :=
  match s.allObs[j]? with
  | some o => if o.connected then crCallback o.headingIndex o.headingId e s else s
  | none => s

/-- Delivery of a whole sequence of intersection events. -/
def fireAllCr (s : CrState) (evs : List (Nat × EntryCr)) : CrState :=
  evs.foldl (fun t e => fireEventCr t e.1 e.2) s

/-- Well-formedness of a crawler state: every registry position held in the
`observers` array is a real registry position, and every connected watcher is
held in the `observers` array.  Both hold for every state reachable through
`crInit`, `crUpdate`, `crDestroy` and event delivery. -/
def wfState (s : CrState) : Prop :=
  (∀ j ∈ s.current, j < s.allObs.length) ∧
    (∀ j ∈ List.range s.allObs.length, obsConnected s.allObs j = true → j ∈ s.current)

/-- All watchers ever created by this instance are disconnected. -/
def allDisconnected (s : CrState) : Prop :=
  ∀ j, obsConnected s.allObs j = false

/-- The three watcher kinds the p0 variant registers per participating
heading: the mid-band watcher, `observerTop` and `observerBottom`. -/
inductive P0ObsKind where
  | mid
  | top
  | bottom
deriving DecidableEq, Repr

/-- A watcher registration of the p0 variant (`src/unnamed/part_000`).
`headingIndex` is the captured value of `permalinkIndexCount`, which that
variant increments only for headings whose next element sibling carries
`data-toc-content`; `headingPos` is the ghost position of the watcher's
heading in the permalink array. -/
structure ObsP0 where
  kind : P0ObsKind
  headingIndex : Nat
  headingId : String
  headingPos : Nat
deriving DecidableEq, Repr

/-- The `headings?.forEach` loop of part_000 `queryHeadings` (lines 55-150):
every non-ignored heading is pushed onto the permalink array, but the loop
returns before `permalinkIndexCount++` and before any watcher registration
when the heading's next element sibling lacks `data-toc-content`.  `wcnt` is
`permalinkIndexCount`, `pos` the ghost count of pushed permalinks. -/
def p0Process (a : TOCCrawlerArgs) :
    List Heading → Nat → Nat → List TOCHeadingLink × List ObsP0
  | [], _, _ => ([], [])
  | h :: rest, wcnt, pos =>
    if h.hasIgnoreAttr then p0Process a rest wcnt pos
    else
      let h2 := assignHeadingId a h
      let pl : TOCHeadingLink :=
        ⟨jsToLowerCase h2.nodeName, h2.id, (h2.firstChildText.map jsTrim).getD "", false⟩
      if h.hasContentSibling then
        let r := p0Process a rest (wcnt + 1) (pos + 1)
        (pl :: r.1,
          ⟨.mid, wcnt, h2.id, pos⟩ :: ⟨.top, wcnt, h2.id, pos⟩ ::
            ⟨.bottom, wcnt, h2.id, pos⟩ :: r.2)
      else
        let r := p0Process a rest wcnt (pos + 1)
        (pl :: r.1, r.2)

/-- The values published by one successful run of part_000 `queryHeadings`:
the permalink array, the watcher registrations, and the default active id. -/
structure P0InitResult where
  permalinks : List TOCHeadingLink
  watchers : List ObsP0
  activeId : String
deriving DecidableEq, Repr

/-- part_000 `queryHeadings` (lines 50-157).  After the heading loop it runs
`tocActiveId.set(permalinks[0].id)`; when the permalink array is empty this
reads the property `id` of `undefined` and throws a TypeError before the
store is written, which the model returns as an error value.  (The second
variant in `src/unnamed/part_002` has the same final two statements.) -/
def p0QueryHeadings (a : TOCCrawlerArgs) (hs : List Heading) :
    Except String P0InitResult :=
  let r := p0Process a hs 0 0
  match r.1.head? with
  | some p => .ok ⟨r.1, r.2, p.id⟩
  | none => .error "TypeError: cannot read property id of undefined"

/-- An `IntersectionObserverEntry` as used by the p0 variant's callbacks:
`y` and `bottom` are `boundingClientRect.y` and `boundingClientRect.bottom`,
`rootBounds` is `(top, bottom)` of the root bounds when present. -/
structure EntryP0 where
  isIntersecting : Bool
  rootBounds : Option (Int × Int)
  y : Int
  bottom : Int
deriving DecidableEq, Repr

/-- The tracker state read and written by the p0 variant's callbacks. -/
structure P0TrackState where
  permalinks : List TOCHeadingLink
  activeId : String
deriving DecidableEq, Repr

/-- The `observerTop` callback of part_000 (lines 102-119), captured over
`headingIndex = i`, the heading id `hid` and the mutable flag
`isDetectTop = det`.  On a non-intersecting entry with `isDetectTop` set and
`boundingClientRect.y < topBounds` it evaluates
`permalinks[headingIndex + 1].id`; when that position is past the end of the
permalink array the read is `undefined.id`, which throws a TypeError,
returned here as an error value.  The returned flag is the new value of
`isDetectTop`. -/
def p0TopCallback (i : Nat) (hid : String) (det : Bool) (e : EntryP0)
    (s : P0TrackState) : Except String (P0TrackState × Bool) :=
  let topBounds := (e.rootBounds.map Prod.fst).getD 0
  if e.isIntersecting then .ok ({ s with activeId := hid }, true)
  else if det = true ∧ e.y < topBounds then
    match s.permalinks[i + 1]? with
    | some p => .ok ({ s with activeId := p.id }, false)
    | none => .error "TypeError: cannot read property id of undefined"
  else .ok (s, det)

theorem length_setDisconnected (reg : List ObsRec) (j : Nat) :
    (setDisconnected reg j).length = reg.length := by
  induction reg generalizing j with
  | nil => rfl
  | cons o rest ih =>
    cases j with
    | zero => rfl
    | succ n => simp [setDisconnected, ih]

theorem obsConnected_setDisconnected (reg : List ObsRec) (j i : Nat) :
    obsConnected (setDisconnected reg j) i =
      if i = j then false else obsConnected reg i := by
  induction reg generalizing j i with
  | nil =>
    simp only [setDisconnected, obsConnected, List.getElem?_nil]
    split <;> rfl
  | cons o rest ih =>
    cases j with
    | zero =>
      cases i with
      | zero => simp [setDisconnected, obsConnected]
      | succ k => simp [setDisconnected, obsConnected]
    | succ m =>
      cases i with
      | zero => simp [setDisconnected, obsConnected]
      | succ k =>
        simp only [setDisconnected, obsConnected, List.getElem?_cons_succ]
        have := ih m k
        simp only [obsConnected] at this
        rw [this]
        by_cases hkm : k = m
        · simp [hkm]
        · simp [hkm, Nat.succ_ne_succ, hkm]

theorem length_foldl_setDisconnected (L : List Nat) (reg : List ObsRec) :
    (L.foldl setDisconnected reg).length = reg.length := by
  induction L generalizing reg with
  | nil => rfl
  | cons a L ih => simp [List.foldl_cons, ih, length_setDisconnected]

theorem obsConnected_foldl_setDisconnected (L : List Nat) (reg : List ObsRec) (i : Nat) :
    obsConnected (L.foldl setDisconnected reg) i =
      if i ∈ L then false else obsConnected reg i := by
  induction L generalizing reg with
  | nil => simp
  | cons a L ih =>
    simp only [List.foldl_cons, ih, obsConnected_setDisconnected, List.mem_cons]
    by_cases hL : i ∈ L
    · simp [hL]
    · by_cases ha : i = a <;> simp [hL, ha]

theorem obsConnected_append (r1 r2 : List ObsRec) (j : Nat) :
    obsConnected (r1 ++ r2) j =
      if j < r1.length then obsConnected r1 j else obsConnected r2 (j - r1.length) := by
  simp only [obsConnected, List.getElem?_append]
  by_cases hj : j < r1.length <;> simp [hj]

theorem obsConnected_true_lt (reg : List ObsRec) (j : Nat)
    (h : obsConnected reg j = true) : j < reg.length := by
  by_contra hcon
  have : reg[j]? = none := List.getElem?_eq_none (Nat.le_of_not_lt hcon)
  simp [obsConnected, this] at h

theorem crProcess_fst (a : TOCCrawlerArgs) (hs : List Heading) (c p : Nat) :
    (crProcess a hs c p).1 =
      (hs.filter (fun h => !h.hasIgnoreAttr)).map (mkPermalink a) := by
  induction hs generalizing c p with
  | nil => rfl
  | cons h rest ih =>
    by_cases hig : h.hasIgnoreAttr
    · simp [crProcess, hig, List.filter_cons, ih]
    · simp only [Bool.not_eq_true] at hig
      simp [crProcess, hig, List.filter_cons, ih, mkPermalink]

theorem crProcess_obs_length (a : TOCCrawlerArgs) (hs : List Heading) (c p : Nat) :
    (crProcess a hs c p).2.1.length =
      (hs.filter (fun h => !h.hasIgnoreAttr)).length := by
  induction hs generalizing c p with
  | nil => rfl
  | cons h rest ih =>
    by_cases hig : h.hasIgnoreAttr
    · simp [crProcess, hig, List.filter_cons, ih]
    · simp only [Bool.not_eq_true] at hig
      simp [crProcess, hig, List.filter_cons, ih]

theorem crProcess_obs_connected (a : TOCCrawlerArgs) (hs : List Heading) (c p : Nat) :
    ∀ o ∈ (crProcess a hs c p).2.1, o.connected = true := by
  induction hs generalizing c p with
  | nil => intro o ho; simp [crProcess] at ho
  | cons h rest ih =>
    intro o ho
    by_cases hig : h.hasIgnoreAttr
    · simp only [crProcess, hig, if_true] at ho
      exact ih c p o ho
    · simp only [crProcess, hig, Bool.false_eq_true, if_false, List.mem_cons] at ho
      rcases ho with rfl | ho
      · rfl
      · exact ih (c + 1) (p + 1) o ho

theorem crProcess_obs_aligned (a : TOCCrawlerArgs) (hs : List Heading) (c : Nat) :
    ∀ o ∈ (crProcess a hs c c).2.1, o.headingIndex = o.headingPos := by
  induction hs generalizing c with
  | nil => intro o ho; simp [crProcess] at ho
  | cons h rest ih =>
    intro o ho
    by_cases hig : h.hasIgnoreAttr
    · simp only [crProcess, hig, if_true] at ho
      exact ih c o ho
    · simp only [crProcess, hig, Bool.false_eq_true, if_false, List.mem_cons] at ho
      rcases ho with rfl | ho
      · rfl
      · exact ih (c + 1) o ho

theorem crProcess_updated (a : TOCCrawlerArgs) (hs : List Heading) (c p : Nat) :
    (crProcess a hs c p).2.2 =
      hs.map (fun h => if h.hasIgnoreAttr then h else assignHeadingId a h) := by
  induction hs generalizing c p with
  | nil => rfl
  | cons h rest ih =>
    by_cases hig : h.hasIgnoreAttr
    · simp [crProcess, hig, ih]
    · simp only [Bool.not_eq_true] at hig
      simp [crProcess, hig, ih]

theorem p0Process_fst (a : TOCCrawlerArgs) (hs : List Heading) (w p : Nat) :
    (p0Process a hs w p).1 =
      (hs.filter (fun h => !h.hasIgnoreAttr)).map (mkPermalink a) := by
  induction hs generalizing w p with
  | nil => rfl
  | cons h rest ih =>
    by_cases hig : h.hasIgnoreAttr
    · simp [p0Process, hig, List.filter_cons, ih]
    · simp only [Bool.not_eq_true] at hig
      by_cases hsib : h.hasContentSibling
      · simp [p0Process, hig, hsib, List.filter_cons, ih, mkPermalink]
      · simp [p0Process, hig, hsib, List.filter_cons, ih, mkPermalink]

theorem p0Process_aligned (a : TOCCrawlerArgs) (hs : List Heading) (c : Nat)
    (hall : ∀ h ∈ hs, h.hasIgnoreAttr = false → h.hasContentSibling = true) :
    ∀ o ∈ (p0Process a hs c c).2, o.headingIndex = o.headingPos := by
  induction hs generalizing c with
  | nil => intro o ho; simp [p0Process] at ho
  | cons h rest ih =>
    intro o ho
    by_cases hig : h.hasIgnoreAttr
    · simp only [p0Process, hig, if_true] at ho
      exact ih c (fun x hx => hall x (List.mem_cons_of_mem h hx)) o ho
    · have hsib : h.hasContentSibling = true := by
        have := hall h (List.mem_cons_self h rest)
        simp only [Bool.not_eq_true] at hig
        exact this hig
      simp only [Bool.not_eq_true] at hig
      simp only [p0Process, hig, Bool.false_eq_true, if_false, hsib, if_true,
        List.mem_cons] at ho
      rcases ho with rfl | rfl | rfl | ho
      · rfl
      · rfl
      · rfl
      · exact ih (c + 1) (fun x hx => hall x (List.mem_cons_of_mem h hx)) o ho

/-- Fixture: configuration with no mode, prefix or suffix. -/
def aPlain : TOCCrawlerArgs := ⟨none, "", ""⟩

/-- Fixture: generate mode without prefix or suffix. -/
def aGen : TOCCrawlerArgs := ⟨some "generate", "", ""⟩

/-- Fixture: a heading whose first text node reads "Hello, World!". -/
def hHello : Heading := ⟨"H2", "", some "Hello, World!", false, true⟩

/-- Fixture: a heading that already has the identifier "intro". -/
def hIntro : Heading := ⟨"H2", "intro", some "Intro", false, true⟩

/-- Fixture: a heading with no first child and no identifier. -/
def hNoText : Heading := ⟨"H2", "", none, false, true⟩

/-- Fixture: a heading carrying `data-toc-ignore`. -/
def hIgn : Heading := ⟨"H3", "", some "Secret", true, true⟩

/-- Fixture: a non-ignored heading without a `data-toc-content` sibling. -/
def hNoSib : Heading := ⟨"H2", "alpha", some "Alpha", false, false⟩

/-- Fixture: a non-ignored heading with a `data-toc-content` sibling. -/
def hWithSib : Heading := ⟨"H2", "beta", some "Beta", false, true⟩

/-- Fixture: the default Heading used by total head operations. -/
def dHeading : Heading := ⟨"", "", none, false, false⟩

/-- C6: for a container with N qualifying non-ignored headings, the published
list has length exactly N and lists the headings in document order (it is the
pointwise image of the non-ignored headings); an ignored heading never
appears in the list, and its element id is left untouched even in generate
mode. -/
theorem c6_list_length_order (a : TOCCrawlerArgs) (hs : List Heading) :
    (extractPermalinks a hs).length =
      (hs.filter (fun h => !h.hasIgnoreAttr)).length ∧
    extractPermalinks a hs =
      (hs.filter (fun h => !h.hasIgnoreAttr)).map (mkPermalink a) ∧
    (∀ pl ∈ extractPermalinks a hs,
      ∃ h ∈ hs, h.hasIgnoreAttr = false ∧ pl = mkPermalink a h) ∧
    ∀ (i : Nat) (h : Heading), hs[i]? = some h → h.hasIgnoreAttr = true →
      (crUpdatedHeadings a hs)[i]? = some h := by
  refine ⟨?_, crProcess_fst a hs 0 0, ?_, ?_⟩
  · rw [extractPermalinks, crProcess_fst]
    exact List.length_map _ _
  · intro pl hpl
    rw [extractPermalinks, crProcess_fst] at hpl
    obtain ⟨h, hh, rfl⟩ := List.mem_map.mp hpl
    obtain ⟨hmem, hig⟩ := List.mem_filter.mp hh
    exact ⟨h, hmem, by simpa using hig, rfl⟩
  · intro i h hi hig
    rw [crUpdatedHeadings, crProcess_updated, List.getElem?_map, hi]
    simp [hig]

/-- C6 witness at a concrete three-heading container: two qualifying
headings survive, and the ignored heading at position 1 keeps its element
record unchanged. -/
theorem c6_witness :
    (extractPermalinks aGen [hIntro, hIgn, hHello]).length = 2 ∧
    (crUpdatedHeadings aGen [hIntro, hIgn, hHello])[1]? = some hIgn :=
  ⟨((c6_list_length_order aGen [hIntro, hIgn, hHello]).1).trans (by decide),
    (c6_list_length_order aGen [hIntro, hIgn, hHello]).2.2.2 1 hIgn rfl rfl⟩

/-- C7: in generate mode a heading with no existing identifier receives
prefix-slug-suffix, where the slug trims the first text node, strips all
characters outside letters, digits and spaces, replaces spaces with hyphens
and lowercases; in particular "Hello, World!" yields "hello-world" bare and
"sec-hello-world-1" with prefix "sec" and suffix "1". -/
theorem c7_slug_generation (pre suf t : String) (h : Heading)
    (hid : h.id = "") (ht : h.firstChildText = some t) :
    (assignHeadingId ⟨some "generate", pre, suf⟩ h).id =
      (if pre = "" then "" else pre ++ "-") ++ slugify t ++
        (if suf = "" then "" else "-" ++ suf) ∧
    slugify t =
      jsToLowerCase ⟨((trimChars t.data).filter keepChar).map spaceToHyphen⟩ ∧
    (assignHeadingId ⟨some "generate", "", ""⟩ hHello).id = "hello-world" ∧
    (assignHeadingId ⟨some "generate", "sec", "1"⟩ hHello).id =
      "sec-hello-world-1" := by
  refine ⟨?_, rfl, by decide, by decide⟩
  simp [assignHeadingId, hid, genId, ht, jsUndefCoe]

/-- C7 witness at prefix "p", suffix "s" and text "Hello, World!". -/
theorem c7_witness :
    (assignHeadingId ⟨some "generate", "p", "s"⟩ hHello).id =
      (if ("p" : String) = "" then "" else "p" ++ "-") ++ slugify "Hello, World!" ++
        (if ("s" : String) = "" then "" else "-" ++ "s") ∧
    slugify "Hello, World!" =
      jsToLowerCase
        ⟨((trimChars ("Hello, World!" : String).data).filter keepChar).map spaceToHyphen⟩ ∧
    (assignHeadingId ⟨some "generate", "", ""⟩ hHello).id = "hello-world" ∧
    (assignHeadingId ⟨some "generate", "sec", "1"⟩ hHello).id =
      "sec-hello-world-1" :=
  c7_slug_generation "p" "s" "Hello, World!" hHello rfl rfl

/-- C8 counterexample: a heading with no first child and no identifier does
not receive the empty-string identifier in generate mode; JavaScript's
string concatenation turns the undefined slug into the literal string
"undefined". -/
theorem c8_counterexample :
    (assignHeadingId aGen hNoText).id = "undefined" ∧
    ¬ (assignHeadingId aGen hNoText).id = "" := by decide

/-- C8 amended: a heading with no extractable text and no identifier is
never rejected (its permalink is still pushed); when the first text node is
present but its text reduces to nothing, the generated identifier is the
prefix/suffix wrapping of the empty string (empty when neither is given);
when the heading has no first node at all, the generated identifier is the
prefix/suffix wrapping of the string "undefined". -/
theorem c8_no_text_identifier (a : TOCCrawlerArgs) (h : Heading)
    (hm : a.mode = some "generate") (hid : h.id = "")
    (hig : h.hasIgnoreAttr = false) :
    (extractPermalinks a [h]).length = 1 ∧
    (h.firstChildText = none →
      (assignHeadingId a h).id =
        (if a.pre = "" then "" else a.pre ++ "-") ++ "undefined" ++
          (if a.suf = "" then "" else "-" ++ a.suf)) ∧
    ∀ t : String, h.firstChildText = some t → slugify t = "" →
      (assignHeadingId a h).id =
        (if a.pre = "" then "" else a.pre ++ "-") ++ "" ++
          (if a.suf = "" then "" else "-" ++ a.suf) := by
  refine ⟨?_, ?_, ?_⟩
  · rw [extractPermalinks, crProcess_fst]
    simp [List.filter_cons, hig]
  · intro hnone
    simp [assignHeadingId, hm, hid, genId, hnone, jsUndefCoe]
  · intro t ht hslug
    simp [assignHeadingId, hm, hid, genId, ht, jsUndefCoe, hslug]

/-- C8 witness at the concrete no-first-child heading. -/
theorem c8_witness :
    (extractPermalinks aGen [hNoText]).length = 1 ∧
    (assignHeadingId aGen hNoText).id =
      (if ("" : String) = "" then "" else "" ++ "-") ++ "undefined" ++
        (if ("" : String) = "" then "" else "-" ++ "") :=
  ⟨(c8_no_text_identifier aGen hNoText rfl rfl rfl).1,
    (c8_no_text_identifier aGen hNoText rfl rfl rfl).2.1 rfl⟩

/-- C9 (code bug): in the p0 variant (and the second variant of
src/unnamed/part_002, whose final statements are identical) a container with
zero qualifying headings makes `queryHeadings` evaluate `permalinks[0].id`
on an empty array, reading the property `id` of `undefined`, which throws a
TypeError instead of degrading silently: the empty list is never published
and the same happens on `update()` since it re-runs the same code. -/
theorem c9_empty_container_throws :
    p0QueryHeadings aPlain [] =
      .error "TypeError: cannot read property id of undefined" ∧
    p0QueryHeadings aGen [hIgn] =
      .error "TypeError: cannot read property id of undefined" := ⟨rfl, rfl⟩

/-- Fixture: the single permalink of a one-heading page in the p0 variant. -/
def plOnly : TOCHeadingLink := ⟨"h2", "only", "Only", false⟩

/-- Fixture: p0 tracker state with exactly one permalink, its heading
active. -/
def stOne : P0TrackState := ⟨[plOnly], "only"⟩

/-- Fixture: an intersecting entry for the p0 top watcher. -/
def eInP0 : EntryP0 := ⟨true, some (0, 300), 10, 40⟩

/-- Fixture: a non-intersecting entry above the top bound for the p0 top
watcher. -/
def eOutTopP0 : EntryP0 := ⟨false, some (0, 300), -5, 20⟩

/-- C10 (code bug): the top watcher of the last participating heading first
reports intersection (setting `isDetectTop`), and on the following
non-intersecting entry above the top bound evaluates
`permalinks[headingIndex + 1].id` with `headingIndex + 1` equal to the length
of the permalink array: the read is `undefined.id`, a TypeError. -/
theorem c10_top_watcher_out_of_bounds :
    p0TopCallback 0 "only" false eInP0 stOne = .ok (⟨[plOnly], "only"⟩, true) ∧
    p0TopCallback 0 "only" true eOutTopP0 stOne =
      .error "TypeError: cannot read property id of undefined" := ⟨rfl, rfl⟩

/-- C3 counterexample: with a non-ignored heading lacking a content-region
sibling followed by one that has one, the second heading's watchers capture
`headingIndex = 0` while the heading sits at position 1 of the permalink
array: the captured index does not refer to the heading's position in the
published list. -/
theorem c3_counterexample :
    ¬ ∀ o ∈ (p0Process aPlain [hNoSib, hWithSib] 0 0).2,
        o.headingIndex = o.headingPos := by decide

/-- C3 amended: the captured watcher index agrees with the heading's
position in the published permalink array provided every non-ignored heading
has a content-region sibling (p0 variant); in the crawler.ts variant, which
registers a watcher for every non-ignored heading, the alignment holds
unconditionally. -/
theorem c3_index_alignment (a : TOCCrawlerArgs) (hs : List Heading)
    (hall : ∀ h ∈ hs, h.hasIgnoreAttr = false → h.hasContentSibling = true) :
    (∀ o ∈ (p0Process a hs 0 0).2, o.headingIndex = o.headingPos) ∧
    ∀ o ∈ (crProcess a hs 0 0).2.1, o.headingIndex = o.headingPos :=
  ⟨p0Process_aligned a hs 0 hall, crProcess_obs_aligned a hs 0⟩

/-- C3 witness: on a page where every non-ignored heading has a content
sibling, the first watcher's captured index equals its heading's position. -/
theorem c3_witness :
    (⟨P0ObsKind.mid, 0, "beta", 0⟩ : ObsP0).headingIndex =
      (⟨P0ObsKind.mid, 0, "beta", 0⟩ : ObsP0).headingPos :=
  (c3_index_alignment aPlain [hWithSib] (by decide)).1
    ⟨P0ObsKind.mid, 0, "beta", 0⟩ (by decide)

/-- Fixture: a crawler-variant state before the action is attached. -/
def blankCr : CrState := ⟨[], [], [], "", []⟩

/-- C5 counterexample: the crawler.ts variant never writes `tocActiveId`
during `init`/`queryHeadings`, so after initialization with one heading the
active id is still the store's previous value (here the empty string), not
the first heading's identifier "intro". -/
theorem c5_counterexample :
    (crInit aPlain [hIntro] blankCr).activeId = "" ∧
    ((crInit aPlain [hIntro] blankCr).permalinks.headD ⟨"", "", "", false⟩).id =
      "intro" ∧
    ¬ (crInit aPlain [hIntro] blankCr).activeId = "intro" := by decide

/-- C5 amended: the default-active behaviour holds in the p0 variant (and in
the second variant of src/unnamed/part_002), whose `queryHeadings` ends with
`tocActiveId.set(permalinks[0].id)`: with at least one qualifying heading,
initialization succeeds and the active id is the identifier of the first
heading in the published list; the crawler.ts variant leaves the active id
untouched at initialization. -/
theorem c5_default_active_first (a : TOCCrawlerArgs) (hs : List Heading)
    (hne : hs.filter (fun h => !h.hasIgnoreAttr) ≠ []) :
    p0QueryHeadings a hs =
      .ok ⟨(hs.filter (fun h => !h.hasIgnoreAttr)).map (mkPermalink a),
        (p0Process a hs 0 0).2,
        (mkPermalink a ((hs.filter (fun h => !h.hasIgnoreAttr)).headD dHeading)).id⟩ := by
  unfold p0QueryHeadings
  cases hl : hs.filter (fun h => !h.hasIgnoreAttr) with
  | nil => exact absurd hl hne
  | cons h0 tl =>
    have hfst := p0Process_fst a hs 0 0
    rw [hl] at hfst
    simp [hfst]

/-- C5 witness: one qualifying heading with identifier "intro". -/
theorem c5_witness :
    p0QueryHeadings aPlain [hIntro] =
      .ok ⟨([hIntro].filter (fun h => !h.hasIgnoreAttr)).map (mkPermalink aPlain),
        (p0Process aPlain [hIntro] 0 0).2,
        (mkPermalink aPlain
          (([hIntro].filter (fun h => !h.hasIgnoreAttr)).headD dHeading)).id⟩ :=
  c5_default_active_first aPlain [hIntro] (by decide)

/-- Fixture: first permalink, currently visible and active. -/
def plA : TOCHeadingLink := ⟨"h2", "a", "A", true⟩

/-- Fixture: second permalink, currently not visible. -/
def plB : TOCHeadingLink := ⟨"h2", "b", "B", false⟩

/-- Fixture: third permalink, currently visible. -/
def plC : TOCHeadingLink := ⟨"h2", "c", "C", true⟩

/-- Fixture: crawler tracker state with three permalinks, the first active. -/
def sABC : CrState := ⟨[plA, plB, plC], [], [], "a", [plA, plB, plC]⟩

/-- Fixture: an entry that has left the trigger band upward. -/
def eUpCr : EntryCr := ⟨false, some (0, 300), -10, 5⟩

/-- Fixture: an entry that has left the trigger band downward. -/
def eDownCr : EntryCr := ⟨false, some (0, 300), 5, 400⟩

/-- C4 counterexample: heading 0 is active and its region leaves the band
upward; the next heading in document order is "b", but the crawler.ts
callback scans for the next heading whose isVisible flag is set and
activates "c" instead. -/
theorem c4_counterexample :
    sABC.activeId = (sABC.permalinks.headD ⟨"", "", "", false⟩).id ∧
    (sABC.permalinks.getD 1 ⟨"", "", "", false⟩).id = "b" ∧
    (crCallback 0 "a" eUpCr sABC).activeId = "c" ∧
    ¬ (crCallback 0 "a" eUpCr sABC).activeId = "b" := by decide

/-- C4 amended: in the crawler.ts callback, when a tracked region leaves the
band upward the activation passes to the nearest following heading whose
isVisible flag is set (the active id is unchanged when no following heading
is visible), not unconditionally to the next heading in document order; when
it leaves the band downward and a previous heading exists, activation passes
to the previous heading by index. -/
theorem c4_band_crossing (s : CrState) (i : Nat) (hid : String) (e : EntryCr)
    (rt rb : Int) (hrb : e.rootBounds = some (rt, rb))
    (hni : e.isIntersecting = false) (_hlt : i < s.permalinks.length) :
    (e.boundingTop < rt →
      (∀ p : TOCHeadingLink,
        ((setVisible s.permalinks i false).drop (i + 1)).find?
            (fun q => q.isVisible) = some p →
          (crCallback i hid e s).activeId = p.id) ∧
      (((setVisible s.permalinks i false).drop (i + 1)).find?
          (fun q => q.isVisible) = none →
        (crCallback i hid e s).activeId = s.activeId)) ∧
    (¬ e.boundingTop < rt → rb ≤ e.boundingBottom → 0 < i →
      (crCallback i hid e s).activeId =
        (s.permalinks.getD (i - 1) ⟨"", "", "", false⟩).id) := by
  constructor
  · intro hup
    constructor
    · intro p hp
      simp [crCallback, hni, hrb, hup, hp]
    · intro hp
      simp [crCallback, hni, hrb, hup, hp]
  · intro hnup hdown hi
    simp [crCallback, hni, hrb, hnup, hdown, hi]

/-- C4 witness: heading 1 leaves the band downward; activation passes to the
previous heading "a". -/
theorem c4_witness :
    (crCallback 1 "b" eDownCr sABC).activeId =
      (sABC.permalinks.getD 0 ⟨"", "", "", false⟩).id :=
  (c4_band_crossing sABC 1 "b" eDownCr 0 300 rfl rfl (by decide)).2
    (by decide) (by decide) (by decide)

theorem crDestroy_allDisconnected (s : CrState) (hw : wfState s) :
    allDisconnected (crDestroy s) := by
  intro j
  show obsConnected (s.current.foldl setDisconnected s.allObs) j = false
  rw [obsConnected_foldl_setDisconnected]
  by_cases hj : j ∈ s.current
  · simp [hj]
  · simp only [hj, if_false]
    by_contra hcon
    rw [Bool.not_eq_false] at hcon
    have hlt := obsConnected_true_lt _ _ hcon
    exact hj (hw.2 j (List.mem_range.mpr hlt) hcon)

theorem fireEventCr_of_allDisconnected (s : CrState) (h : allDisconnected s)
    (j : Nat) (e : EntryCr) : fireEventCr s j e = s := by
  unfold fireEventCr
  cases hq : s.allObs[j]? with
  | none => rfl
  | some o =>
    have hc := h j
    unfold obsConnected at hc
    rw [hq] at hc
    have hc2 : o.connected = false := hc
    simp [hc2]

theorem fireAllCr_of_allDisconnected (s : CrState) (h : allDisconnected s)
    (evs : List (Nat × EntryCr)) : fireAllCr s evs = s := by
  induction evs with
  | nil => rfl
  | cons ev evs ih =>
    show fireAllCr (fireEventCr s ev.1 ev.2) evs = s
    rw [fireEventCr_of_allDisconnected s h ev.1 ev.2]
    exact ih

/-- C1: `destroy()` disconnects every watcher this instance ever registered,
and afterwards no delivery of intersection events changes the state: the
active id and the published heading list are exactly as `destroy()` left
them, whatever events arrive, so "all watchers disconnected" holds at any
time after `destroy()`. -/
theorem c1_destroy_disconnects_all (s : CrState) (hw : wfState s)
    (evs : List (Nat × EntryCr)) :
    allDisconnected (crDestroy s) ∧
    fireAllCr (crDestroy s) evs = crDestroy s ∧
    (fireAllCr (crDestroy s) evs).activeId = s.activeId ∧
    (fireAllCr (crDestroy s) evs).tocList = s.tocList := by
  have h1 := crDestroy_allDisconnected s hw
  have h2 := fireAllCr_of_allDisconnected _ h1 evs
  exact ⟨h1, h2, by rw [h2]; rfl, by rw [h2]; rfl⟩

/-- Fixture: a crawler state created by attaching the action to a page with
two qualifying headings. -/
def sLive : CrState := crInit aPlain [hIntro, hWithSib] blankCr

/-- C1 witness: a concrete initialized instance is well-formed; after
destroy its first watcher is disconnected and a crossing event delivered to
it leaves the state untouched. -/
theorem c1_witness :
    obsConnected (crDestroy sLive).allObs 0 = false ∧
    fireAllCr (crDestroy sLive) [(0, eUpCr)] = crDestroy sLive :=
  ⟨(c1_destroy_disconnects_all sLive (by unfold wfState; decide) [(0, eUpCr)]).1 0,
    (c1_destroy_disconnects_all sLive (by unfold wfState; decide) [(0, eUpCr)]).2.1⟩

theorem crUpdate_allObs (a : TOCCrawlerArgs) (hs : List Heading) (s : CrState) :
    (crUpdate a hs s).allObs =
      (s.current.foldl setDisconnected s.allObs) ++ (crProcess a hs 0 0).2.1 := rfl

theorem crUpdate_current (a : TOCCrawlerArgs) (hs : List Heading) (s : CrState) :
    (crUpdate a hs s).current =
      (List.range (crProcess a hs 0 0).2.1.length).map
        (fun k => (s.current.foldl setDisconnected s.allObs).length + k) := rfl

theorem crUpdate_tocList (a : TOCCrawlerArgs) (hs : List Heading) (s : CrState) :
    (crUpdate a hs s).tocList = (crProcess a hs 0 0).1 := rfl

theorem obsConnected_of_forall (reg : List ObsRec)
    (hall : ∀ o ∈ reg, o.connected = true) (k : Nat) (hk : k < reg.length) :
    obsConnected reg k = true := by
  induction reg generalizing k with
  | nil => simp at hk
  | cons o rest ih =>
    cases k with
    | zero =>
      simp only [obsConnected, List.getElem?_cons_zero]
      exact hall o (List.mem_cons_self o rest)
    | succ n =>
      have hr := ih (fun x hx => hall x (List.mem_cons_of_mem o hx)) n
        (by simpa using hk)
      simpa [obsConnected] using hr

/-- C2: `update(newConfig)` disconnects every watcher of the previous cycle
(inside `queryHeadings`, before any new watcher is created), and after the
rebuild the watcher set is exactly the new one: its size is the number of
non-ignored headings of the new configuration (never cumulative), every
connected watcher belongs to the new cycle, every new watcher is connected,
and the published heading list is rebuilt wholesale from the new headings. -/
theorem c2_update_replaces_watchers (a : TOCCrawlerArgs) (hs : List Heading)
    (s : CrState) (hw : wfState s) :
    (∀ j ∈ s.current, obsConnected (crUpdate a hs s).allObs j = false) ∧
    (crUpdate a hs s).current.length =
      (hs.filter (fun h => !h.hasIgnoreAttr)).length ∧
    (∀ j : Nat, obsConnected (crUpdate a hs s).allObs j = true →
      j ∈ (crUpdate a hs s).current) ∧
    (∀ j ∈ (crUpdate a hs s).current,
      obsConnected (crUpdate a hs s).allObs j = true) ∧
    (crUpdate a hs s).tocList =
      (hs.filter (fun h => !h.hasIgnoreAttr)).map (mkPermalink a) := by
  have hreg : (s.current.foldl setDisconnected s.allObs).length = s.allObs.length :=
    length_foldl_setDisconnected _ _
  refine ⟨?_, ?_, ?_, ?_, ?_⟩
  · intro j hj
    rw [crUpdate_allObs, obsConnected_append]
    have hjr : j < (s.current.foldl setDisconnected s.allObs).length := by
      rw [hreg]; exact hw.1 j hj
    rw [if_pos hjr, obsConnected_foldl_setDisconnected]
    simp [hj]
  · rw [crUpdate_current]
    simp [crProcess_obs_length]
  · intro j hcon
    rw [crUpdate_allObs, obsConnected_append] at hcon
    rw [crUpdate_current]
    by_cases hjr : j < (s.current.foldl setDisconnected s.allObs).length
    · rw [if_pos hjr, obsConnected_foldl_setDisconnected] at hcon
      by_cases hjc : j ∈ s.current
      · simp [hjc] at hcon
      · simp only [hjc, if_false] at hcon
        have hjl : j < s.allObs.length := hreg ▸ hjr
        exact absurd (hw.2 j (List.mem_range.mpr hjl) hcon) hjc
    · rw [if_neg hjr] at hcon
      have hk := obsConnected_true_lt _ _ hcon
      refine List.mem_map.mpr
        ⟨j - (s.current.foldl setDisconnected s.allObs).length,
          List.mem_range.mpr hk, by omega⟩
  · intro j hj
    rw [crUpdate_current] at hj
    obtain ⟨k, hk, rfl⟩ := List.mem_map.mp hj
    have hkr := List.mem_range.mp hk
    rw [crUpdate_allObs, obsConnected_append, if_neg (by omega)]
    have hsub : (s.current.foldl setDisconnected s.allObs).length + k -
        (s.current.foldl setDisconnected s.allObs).length = k := by omega
    rw [hsub]
    exact obsConnected_of_forall _ (crProcess_obs_connected a hs 0 0) k hkr
  · rw [crUpdate_tocList]
    exact crProcess_fst a hs 0 0

/-- C2 witness: updating the concrete live instance to a one-heading
configuration disconnects its old first watcher and leaves exactly one
watcher registered. -/
theorem c2_witness :
    obsConnected (crUpdate aGen [hHello] sLive).allObs 0 = false ∧
    (crUpdate aGen [hHello] sLive).current.length = 1 :=
  ⟨(c2_update_replaces_watchers aGen [hHello] sLive
      (by unfold wfState; decide)).1 0 (by decide),
    ((c2_update_replaces_watchers aGen [hHello] sLive
      (by unfold wfState; decide)).2.1).trans (by decide)⟩
